import Mathlib

/-!
Verification development for the USFM chapter-generation engine of the
uw-web repository (`tools/unfolding-word/uw-grab-bibles.js`).

The generator (`uwGenerateUsfm`) consumes, per source unit (one `.usfm`
file, one book), a sequence of lines; each line is tokenized by an external
parser into tag records, which are dispatched through a `switch` that
maintains four block-open booleans, a chapter accumulator, a verse
accumulator, and a book context, appending html fragments to the current
chapter and flushing finished chapters into `chapterData`.  After all units
are processed, `addChapterNavigation` links the records and
`wrapChapterHtmlElements` wraps their html.

External collaborators of the engine (the line tokenizer, the bible
formatter, the book-metadata resolver, and the verse indexer) live in the
repository outside the sources at hand; they are modelled abstractly: the
formatter and resolver as an explicit `Ext` record of functions the
theorems quantify over, the tokenizer by lines carrying their token list,
and the indexer by a log of the calls made to it.
-/

namespace UWGen

/-- One tag record produced by the external USFM line tokenizer
(`usfmParser.parseLine` yields objects of shape `\x7b key, number, text \x7d`). -/
structure UsfmData where
  key : String
  number : String
  text : String
deriving DecidableEq

/-- Book metadata returned by the external resolver
`bibleDataParser.getBookInfoByUsfmCode`.  The generator reads the fields
`dbsCode`, `name` (used for chapter titles) and `names.eng[0]`
(the default book name). -/
structure BookInfo where
  dbsCode : String
  name : String
  namesEng0 : String
deriving DecidableEq

/-- A finalized chapter record as pushed by `closeChapter`:
`\x7b id, title, html \x7d`. -/
structure ChapterRecord where
  id : String
  title : String
  html : String
deriving DecidableEq

/-- A chapter record after `addChapterNavigation` has filled in the
navigation fields; JavaScript `null` is modelled by `none`. -/
structure NavRecord where
  id : String
  title : String
  html : String
  previd : Option String
  nextid : Option String
deriving DecidableEq

/-- One recorded call to the external `verseIndexer.indexVerse`: the engine
passes `currentVerse.id`, `currentVerse.text` and `info.lang`. -/
structure IndexCall where
  id : Option String
  text : String
  lang : String
deriving DecidableEq

/-- The four block kinds tracked by the boolean block-open flags. -/
inductive BlockKind
  | text
  | verse
  | footnote
  | listItem
deriving DecidableEq

/-- Ghost event recording that an opening or a closing fragment for a
tracked block kind was emitted into the chapter html.  The events are
appended exactly where the engine appends the corresponding fragment; the
engine itself never reads them. -/
inductive BlockEvent
  | openB (k : BlockKind)
  | closeB (k : BlockKind)
deriving DecidableEq

/-- Modelled from the spec: the external collaborators `bible_formatter`
(Content Wrapper) and `bible_data` (Book Metadata Resolver) are repository
code outside the sources at hand.  Per the spec they supply
`openChapter`/`closeChapter`, `openVerse`/`closeVerse`,
`formatChapterCode`/`formatVerseCode` and the book lookup.
`formatVerseCode` may return null (the engine guards on
`currentVerse.id !== null`), hence its `Option` result; the code formatters
receive the book `dbsCode`, which is `undefined` (`none`) while no `id` tag
has resolved a book, and the chapter number, which is a `parseInt` result
(`none` models `NaN`). -/
structure Ext where
  openVerse : Option String → Option String → String
  closeVerse : String
  formatChapterCode : Option String → Option Int → String
  formatVerseCode : Option String → Option Int → String → Option String
  openChapter : NavRecord → String
  closeChapter : String
  getBookInfoByUsfmCode : String → BookInfo
  lang : String

/-- The per-unit book context (`currentBook`).  `parsedInfo` starts as the
empty object `\x7b\x7d`, modelled by `none`. -/
structure CurrentBook where
  name : String
  abbreviation : String
  parsedInfo : Option BookInfo
deriving DecidableEq

/-- The per-unit chapter accumulator (`currentChapter`).  `number` is a
JavaScript number set from `parseInt` (`none` models `NaN`); it starts
as `0`. -/
structure CurrentChapter where
  header : String
  html : String
  id : String
  number : Option Int
  title : String
deriving DecidableEq

/-- The per-unit verse accumulator (`currentVerse`).  `id` starts as the
empty string and is later set from `formatVerseCode`, which may return
null, hence `Option String`.  In the source `number` starts as the
JavaScript number `0`; it is only ever read after being overwritten with
the string `usfmData.number`, so it is modelled as a string initialized
to `"0"`. -/
structure CurrentVerse where
  id : Option String
  number : String
  text : String
deriving DecidableEq

/-- The whole mutable state of one `generate` run, together with the
module-level state (the four block flags and `uwObject.unparsedTags`,
which `generate` does not reset) and the ghost block-event trace. -/
structure GenState where
  textBlockOpen : Bool
  verseBlockOpen : Bool
  footnoteBlockOpen : Bool
  listItemBlockOpen : Bool
  unparsedTags : List String
  chapterData : List ChapterRecord
  indexCalls : List IndexCall
  chapterCodes : List String
  bookCodes : List (Option String)
  bookNames : List String
  bookAbbreviations : List String
  currentBook : CurrentBook
  currentChapter : CurrentChapter
  currentVerse : CurrentVerse
  noteNumber : Nat
  events : List BlockEvent
deriving DecidableEq

/-- The module-level state that survives across calls to `generate`:
the four block flags and the unparsed-tag registry. -/
structure ModState where
  textBlockOpen : Bool
  verseBlockOpen : Bool
  footnoteBlockOpen : Bool
  listItemBlockOpen : Bool
  unparsedTags : List String
deriving DecidableEq

/-- One input line of a source unit: the raw line together with the token
list the external tokenizer produced for it. -/
structure SrcLine where
  raw : String
  tags : List UsfmData
deriving DecidableEq

/-! ### JavaScript string and number helpers, modelled structurally -/

/-- Value of a decimal digit character, if it is one. -/
def decDigit? (c : Char) : Option Nat :=
  if '0' ≤ c ∧ c ≤ '9' then some (c.toNat - '0'.toNat) else none

/-- Value of a hexadecimal digit character, if it is one. -/
def hexDigit? (c : Char) : Option Nat :=
  if '0' ≤ c ∧ c ≤ '9' then some (c.toNat - '0'.toNat)
  else if 'a' ≤ c ∧ c ≤ 'f' then some (c.toNat - 'a'.toNat + 10)
  else if 'A' ≤ c ∧ c ≤ 'F' then some (c.toNat - 'A'.toNat + 10)
  else none

/-- Value of the longest leading run of digits, `none` when there is
no leading digit (JavaScript `parseInt` yields `NaN` then). -/
def digitsVal (f : Char → Option Nat) (base : Nat) (cs : List Char) : Option Nat :=
  let ds := cs.takeWhile (fun c => (f c).isSome)
  if ds.isEmpty then none
  else some (ds.foldl (fun a c => a * base + (f c).getD 0) 0)

/-- Unsigned part of JavaScript `parseInt` with no radix argument:
a `0x`/`0X` head selects base 16, otherwise base 10. -/
def parseUnsignedJs : List Char → Option Nat
  | '0' :: 'x' :: rest => digitsVal hexDigit? 16 rest
  | '0' :: 'X' :: rest => digitsVal hexDigit? 16 rest
  | cs => digitsVal decDigit? 10 cs

/-- JavaScript `parseInt(s)`: skip leading whitespace, allow one sign,
parse leading digits; `none` models `NaN`. -/
def parseIntJs (s : String) : Option Int :=
  match s.toList.dropWhile Char.isWhitespace with
  | '-' :: rest => (parseUnsignedJs rest).map (fun n => -(n : Int))
  | '+' :: rest => (parseUnsignedJs rest).map (fun n => (n : Int))
  | cs => (parseUnsignedJs cs).map (fun n => (n : Int))

/-- JavaScript `x > 1` on a `parseInt` result; `NaN > 1` is `false`. -/
def jsGTone : Option Int → Bool
  | some n => decide (1 < n)
  | none => false

/-- JavaScript `Number.prototype.toString` on a `parseInt` result. -/
def numToString : Option Int → String
  | some n => toString n
  | none => "NaN"

/-- JavaScript `String.prototype.trim`. -/
def jsTrim (s : String) : String :=
  String.mk (((s.toList.dropWhile Char.isWhitespace).reverse.dropWhile
    Char.isWhitespace).reverse)

/-- JavaScript `String.prototype.toUpperCase` (ASCII range). -/
def jsToUpper (s : String) : String :=
  String.mk (s.toList.map Char.toUpper)

/-- JavaScript `text.split(' ')[0]`: the characters before the first
space (the whole string when it has no space). -/
def firstSpaceField (s : String) : String :=
  String.mk (s.toList.takeWhile (fun c => c ≠ ' '))

/-- `line.replace(/\s/g, '').length` is nonzero: the line has
non-whitespace content. -/
def hasNonWs (s : String) : Bool :=
  !(s.toList.filter (fun c => !c.isWhitespace)).isEmpty

/-- Source `stripPlural`: drop a trailing `s` if present
(`text.substring(text.length - 1) == 's'`). -/
def stripPlural (text : String) : String :=
  if text.toList.getLast? = some 's' then String.mk text.toList.dropLast else text

/-- JavaScript `text.indexOf(' ')`: the index of the first space, `none`
when there is none (JavaScript returns `-1` then). -/
def idxOfSpace : List Char → Option Nat
  | [] => none
  | c :: cs => if c = ' ' then some 0 else (idxOfSpace cs).map (fun i => i + 1)

/-- Source `stripCaller`: `text.substring(text.indexOf(' ') + 1)`.  When the
text has no space, `indexOf` gives `-1` and the whole text is returned. -/
def stripCaller (text : String) : String :=
  match idxOfSpace text.toList with
  | none => text
  | some i => String.mk (text.toList.drop (i + 1))

/-- Source `abbreviate`: remove all whitespace, keep the first three
characters (`text.replace(/\s/gi, '').substring(0, 3)`). -/
def abbreviate (text : String) : String :=
  String.mk ((text.toList.filter (fun c => !c.isWhitespace)).take 3)

/-! ### The engine -/

/-- `uwObject.htmlBreakingElement` at its initial value. -/
def htmlBreakingElement : String := "\n"

/-- `currentBook.parsedInfo.name`; reading `name` from the initial empty
object yields the JavaScript `undefined`, which string concatenation turns
into `"undefined"`. -/
def jsBookName : Option BookInfo → String
  | some b => b.name
  | none => "undefined"

/-- `currentBook.parsedInfo.dbsCode` (`none` models `undefined`). -/
def bookDbsCode (b : CurrentBook) : Option String :=
  b.parsedInfo.map (fun i => i.dbsCode)

/-- Append a fragment to the current chapter html
(`currentChapter.html += s`). -/
def appendHtml (st : GenState) (s : String) : GenState :=
  { st with currentChapter := { st.currentChapter with
      html := st.currentChapter.html ++ s } }

/-- Source `closeTextBlock`: if a text block is open, clear the flag and
return the closing fragment, else return the empty string. -/
def closeTextBlock (st : GenState) : String × GenState :=
  if st.textBlockOpen then
    ("</div>" ++ htmlBreakingElement,
     { st with textBlockOpen := false,
               events := st.events ++ [BlockEvent.closeB BlockKind.text] })
  else ("", st)

/-- Source `closeVerseBlock`: if a verse block is open, clear the flag and
return `bibleFormatter.closeVerse()`, else return the empty string. -/
def closeVerseBlock (ext : Ext) (st : GenState) : String × GenState :=
  if st.verseBlockOpen then
    (ext.closeVerse,
     { st with verseBlockOpen := false,
               events := st.events ++ [BlockEvent.closeB BlockKind.verse] })
  else ("", st)

/-- Source `closeFootnoteBlock`: if a footnote block is open, clear the
flag and return the closing fragment, else return the empty string. -/
def closeFootnoteBlock (st : GenState) : String × GenState :=
  if st.footnoteBlockOpen then
    ("</span></span>",
     { st with footnoteBlockOpen := false,
               events := st.events ++ [BlockEvent.closeB BlockKind.footnote] })
  else ("", st)

/-- Source `closeListItemBlock`: if a list-item block is open, clear the
flag and return the closing fragment, else return the empty string. -/
def closeListItemBlock (st : GenState) : String × GenState :=
  if st.listItemBlockOpen then
    ("</div>" ++ htmlBreakingElement,
     { st with listItemBlockOpen := false,
               events := st.events ++ [BlockEvent.closeB BlockKind.listItem] })
  else ("", st)

/-- `currentChapter.html += closer()`: run a close helper and append the
fragment it returns. -/
def applyClose (f : GenState → String × GenState) (st : GenState) : GenState :=
  appendHtml (f st).2 (f st).1

/-- The close sequence shared by the `b`, `c` and heading cases:
close verse, then list item, then text. -/
def closeVLT (ext : Ext) (st : GenState) : GenState :=
  applyClose closeTextBlock (applyClose closeListItemBlock
    (applyClose (closeVerseBlock ext) st))

/-- Source `getChapterHeader`: a Psalms chapter is prefixed with the
depluralized book header. -/
def getChapterHeader (ch : CurrentChapter) : String :=
  let psalmChapter := "PS" ++ numToString ch.number
  let content := if ch.id = psalmChapter then stripPlural ch.header ++ " " else ""
  "<div class=\"c\">" ++ (content ++ numToString ch.number) ++ "</div>" ++
    htmlBreakingElement

/-- Source `closeChapter`: push the accumulator fields as a finalized
record.  (The source throws only when `bibleData` lacks the `chapterData`
property, which in this model is always present.) -/
def closeChapter (st : GenState) : GenState :=
  { st with chapterData := st.chapterData ++
      [{ id := st.currentChapter.id, title := st.currentChapter.title,
         html := st.currentChapter.html }] }

/-- The indexing guard shared by the `v` case and the unit-end cleanup:
`if (createIndex && currentVerse.text !== '' && currentVerse.id !== null)`
submit the pending verse to the verse indexer (modelled as appending the
call to the log). -/
def maybeIndexVerse (ci : Bool) (ext : Ext) (st : GenState) : GenState :=
  if ci ∧ st.currentVerse.text ≠ "" ∧ st.currentVerse.id ≠ none then
    { st with indexCalls := st.indexCalls ++
        [{ id := st.currentVerse.id, text := st.currentVerse.text,
           lang := ext.lang }] }
  else st

/-- The opening fragment of a footnote/cross-reference, up to the caller
text (`<span class="note" ...><a class="key" ...>n</a><span class="text">`). -/
def notePre (n : Nat) : String :=
  "<span class=\"note\" id=\"note-" ++ toString n ++
    "\"><a class=\"key\" href=\"#footnote-" ++ toString n ++ "\">" ++
    toString n ++ "</a><span class=\"text\">"

/-- Dispatch case `b`. -/
def actB (ext : Ext) (st : GenState) : GenState :=
  appendHtml (closeVLT ext st)
    ("<div class=\"b\">&nbsp;</div>" ++ htmlBreakingElement)

/-- The record flushed by a chapter boundary: the accumulator after the
pending close fragments of the `c` dispatch have been appended. -/
def flushRec (ext : Ext) (st : GenState) : ChapterRecord :=
  { id := (closeVLT ext st).currentChapter.id,
    title := (closeVLT ext st).currentChapter.title,
    html := (closeVLT ext st).currentChapter.html }

/-- Dispatch case `c`: close blocks, set the chapter number from
`parseInt(usfmData.number)`, flush the previous chapter when the new number
exceeds 1, set title and id, record the chapter code, emit the header. -/
def actC (ext : Ext) (st : GenState) (d : UsfmData) : GenState :=
  let st1 := closeVLT ext st
  let num := parseIntJs d.number
  let st2 := { st1 with currentChapter := { st1.currentChapter with number := num } }
  let st3 :=
    if jsGTone num then
      let st' := closeChapter st2
      { st' with currentChapter := { st'.currentChapter with
          title := "", id := "", html := "" } }
    else st2
  let title := jsBookName st3.currentBook.parsedInfo ++ " " ++ numToString num
  let id := ext.formatChapterCode (bookDbsCode st3.currentBook) num
  let st4 := { st3 with
    currentChapter := { st3.currentChapter with title := title, id := id },
    chapterCodes := st3.chapterCodes ++ [id] }
  appendHtml st4 (getChapterHeader st4.currentChapter)

/-- Dispatch case `h`. -/
def actH (st : GenState) (d : UsfmData) : GenState :=
  { st with currentChapter := { st.currentChapter with header := jsTrim d.text } }

/-- Dispatch case `id`: resolve the book from the first space-separated
token of the text, set the default name and abbreviation. -/
def actId (ext : Ext) (st : GenState) (d : UsfmData) : GenState :=
  let bookId := jsToUpper (jsTrim (firstSpaceField d.text))
  let info := ext.getBookInfoByUsfmCode bookId
  { st with currentBook :=
      { name := info.namesEng0, abbreviation := abbreviate info.namesEng0,
        parsedInfo := some info } }

/-- Dispatch cases `toc1`/`toc2`: a non-empty trimmed text overwrites the
book name. -/
def actTocName (st : GenState) (d : UsfmData) : GenState :=
  if jsTrim d.text ≠ "" then
    { st with currentBook := { st.currentBook with name := jsTrim d.text } }
  else st

/-- Dispatch case `toc3`: a non-empty trimmed text overwrites the book
abbreviation. -/
def actTocAbbr (st : GenState) (d : UsfmData) : GenState :=
  if jsTrim d.text ≠ "" then
    { st with currentBook := { st.currentBook with abbreviation := jsTrim d.text } }
  else st

/-- The heading/label dispatch cases (`is` … `r`): close blocks and emit a
labeled div. -/
def actHeading (ext : Ext) (st : GenState) (d : UsfmData) : GenState :=
  appendHtml (closeVLT ext st)
    ("<div class=\"" ++ d.key ++ "\">" ++ d.text ++ "</div>" ++ htmlBreakingElement)

/-- The verse id computed at a `v` dispatch:
`formatVerseCode(dbsCode, chapterNumber, verseNumber)`. -/
def vCode (ext : Ext) (st : GenState) (d : UsfmData) : Option String :=
  ext.formatVerseCode (bookDbsCode st.currentBook) st.currentChapter.number d.number

/-- Dispatch case `v`: close the verse block, index the previous verse
under the guard, overwrite the verse accumulator, emit the opening verse
fragment followed by the verse text, and mark the verse block open. -/
def actV (ext : Ext) (ci : Bool) (st : GenState) (d : UsfmData) : GenState :=
  let st1 := applyClose (closeVerseBlock ext) st
  let st2 := maybeIndexVerse ci ext st1
  let vid := vCode ext st2 d
  let st3 := { st2 with currentVerse := { id := vid, number := d.number, text := d.text } }
  let st4 := appendHtml st3 (ext.openVerse vid (some d.number) ++ d.text)
  { st4 with verseBlockOpen := true,
             events := st4.events ++ [BlockEvent.openB BlockKind.verse] }

/-- The paragraph/poetry dispatch cases (`cp` … `q3`): close verse and text
blocks, open a labeled text block, and wrap any inline text as an anonymous
(unnumbered) verse nested inside. -/
def actParagraph (ext : Ext) (st : GenState) (d : UsfmData) : GenState :=
  let st1 := applyClose closeTextBlock (applyClose (closeVerseBlock ext) st)
  let st2 := appendHtml st1 ("<div class=\"" ++ d.key ++ "\">" ++ htmlBreakingElement)
  let st3 := { st2 with events := st2.events ++ [BlockEvent.openB BlockKind.text] }
  let st4 :=
    if d.text ≠ "" then
      let st' := appendHtml st3
        (ext.openVerse st3.currentVerse.id none ++ d.text ++ ext.closeVerse)
      { st' with events := st'.events ++
          [BlockEvent.openB BlockKind.verse, BlockEvent.closeB BlockKind.verse] }
    else st3
  { st4 with textBlockOpen := true }

/-- The list-item dispatch cases (`li` … `li3`). -/
def actListItem (ext : Ext) (st : GenState) (d : UsfmData) : GenState :=
  let st1 := applyClose closeListItemBlock (applyClose (closeVerseBlock ext) st)
  let st2 := appendHtml st1 ("<div class=\"" ++ d.key ++ "\">" ++ d.text)
  { st2 with listItemBlockOpen := true,
             events := st2.events ++ [BlockEvent.openB BlockKind.listItem] }

/-- The footnote/cross-reference open cases (`x`, `f`): emit the note
fragment with the caller stripped from the text, bump the note counter,
mark the footnote block open. -/
def actNote (st : GenState) (d : UsfmData) : GenState :=
  let st1 := appendHtml st (notePre st.noteNumber ++ stripCaller d.text)
  { st1 with noteNumber := st1.noteNumber + 1,
             footnoteBlockOpen := true,
             events := st1.events ++ [BlockEvent.openB BlockKind.footnote] }

/-- The default dispatch case: record an unrecognized non-empty key once. -/
def actDefault (st : GenState) (d : UsfmData) : GenState :=
  if d.key ≠ "" ∧ d.key ∉ st.unparsedTags then
    { st with unparsedTags := st.unparsedTags ++ [d.key] }
  else st

/-- The tag-dispatch switch of `uwObject.generate`: one arm per set of
fall-through case labels, in source order. -/
def processTag (ext : Ext) (ci : Bool) (st : GenState) (d : UsfmData) : GenState :=
  match d.key with
  | "b" => actB ext st
  | "c" => actC ext st d
  | "h" => actH st d
  | "ide" => st
  | "id" => actId ext st d
  | "toc1" | "toc2" => actTocName st d
  | "toc3" => actTocAbbr st d
  | "is" | "is1" | "ip" | "ili" | "ili1" | "ili2" | "mt" | "mt1" | "mt2"
  | "mt3" | "ms" | "d" | "sp" | "sr" | "s1" | "s2" | "r" => actHeading ext st d
  | "v" => actV ext ci st d
  | "cp" | "m" | "mi" | "nb" | "p" | "pi" | "q" | "q1" | "q2" | "q3" =>
    actParagraph ext st d
  | "li" | "li1" | "li2" | "li3" => actListItem ext st d
  | "x" | "f" => actNote st d
  | "fqa" => appendHtml st ("<em>" ++ d.text ++ "</em>")
  | "ft" => appendHtml st d.text
  | "x*" | "f*" => applyClose closeFootnoteBlock st
  | "wj" => appendHtml st ("<span class=\"wj woj\">" ++ d.text)
  | "wj*" => appendHtml st "</span>"
  | "qs" => appendHtml st ("<span class=\"qs\">" ++ d.text)
  | "qs*" => appendHtml st "</span>"
  | "nd" => appendHtml st ("<span class=\"nog\">" ++ d.text)
  | "nd*" => appendHtml st "</span>"
  | _ => actDefault st d

/-- One input line: a line whose tokenization is empty contributes its raw
text (prefixed by one space) to the chapter html when it has non-whitespace
content; otherwise every tag of the line is dispatched in order. -/
def processLine (ext : Ext) (ci : Bool) (st : GenState) (l : SrcLine) : GenState :=
  if l.tags = [] then
    if hasNonWs l.raw then appendHtml st (" " ++ l.raw) else st
  else
    l.tags.foldl (processTag ext ci) st

/-- The per-unit variables of `generate` are declared afresh for each
source file; the block flags and the unparsed-tag registry are
module-level and persist. -/
def resetUnitState (st : GenState) : GenState :=
  { st with
    currentBook := { name := "", abbreviation := "", parsedInfo := none },
    currentChapter := { header := "", html := "", id := "", number := some 0, title := "" },
    currentVerse := { id := some "", number := "0", text := "" },
    noteNumber := 1 }

/-- The unit-end cleanup after the last line of a source file: close
footnote, close verse, index the pending verse under the shared guard,
close list item, close text, finalize the last chapter, reset the
accumulator fields, and push the book identifiers onto the running
totals. -/
def unitCleanup (ext : Ext) (ci : Bool) (st : GenState) : GenState :=
  let st1 := applyClose closeFootnoteBlock st
  let st2 := applyClose (closeVerseBlock ext) st1
  let st3 := maybeIndexVerse ci ext st2
  let st4 := applyClose closeListItemBlock st3
  let st5 := applyClose closeTextBlock st4
  let st6 := closeChapter st5
  let st7 := { st6 with currentChapter := { st6.currentChapter with
      title := "", id := "", html := "" } }
  { st7 with
    bookCodes := st7.bookCodes ++ [bookDbsCode st7.currentBook],
    bookNames := st7.bookNames ++ [st7.currentBook.name],
    bookAbbreviations := st7.bookAbbreviations ++ [st7.currentBook.abbreviation] }

/-- Process one source unit: reset the per-unit variables, run every line,
then perform the unit-end cleanup. -/
def processUnit (ext : Ext) (ci : Bool) (st : GenState) (lines : List SrcLine) :
    GenState :=
  unitCleanup ext ci (lines.foldl (processLine ext ci) (resetUnitState st))

/-- Source `addChapterNavigation`, functionally: thread the previous id
down the list and peek at the next record for `nextid`. -/
def navAux (prev : Option String) : List ChapterRecord → List NavRecord
  | [] => []
  | c :: rest =>
    { id := c.id, title := c.title, html := c.html,
      previd := prev,
      nextid := match rest with | [] => none | c2 :: _ => some c2.id } ::
      navAux (some c.id) rest

/-- Source `addChapterNavigation`: `previd` of record `i` is the id of
record `i - 1` (null for the first), `nextid` the id of record `i + 1`
(null for the last). -/
def addChapterNavigation (l : List ChapterRecord) : List NavRecord :=
  navAux none l

/-- Source `wrapChapterHtmlElements`: replace every record's html with
`openChapter(info, chapter) + html + closeChapter()` (the run metadata is
folded into `Ext.openChapter`). -/
def wrapChapterHtmlElements (ext : Ext) (l : List NavRecord) : List NavRecord :=
  l.map (fun c => { c with html := ext.openChapter c ++ c.html ++ ext.closeChapter })

/-- The data `generate` returns (`indexLemmaData` is never populated by the
engine and is omitted; the verse index is modelled by the call log). -/
structure BibleData where
  chapterData : List NavRecord
  indexCalls : List IndexCall
  aboutHtml : String
  divisions : List (Option String)
  divisionNames : List String
  divisionAbbreviations : List String
  sections : List String
deriving DecidableEq

/-- The run state at the start of `generate`: the returned data is reset,
the module-level flags and unparsed-tag registry are carried over. -/
def initGenState (m : ModState) : GenState :=
  { textBlockOpen := m.textBlockOpen,
    verseBlockOpen := m.verseBlockOpen,
    footnoteBlockOpen := m.footnoteBlockOpen,
    listItemBlockOpen := m.listItemBlockOpen,
    unparsedTags := m.unparsedTags,
    chapterData := [], indexCalls := [], chapterCodes := [],
    bookCodes := [], bookNames := [], bookAbbreviations := [],
    currentBook := { name := "", abbreviation := "", parsedInfo := none },
    currentChapter := { header := "", html := "", id := "", number := some 0, title := "" },
    currentVerse := { id := some "", number := "0", text := "" },
    noteNumber := 1,
    events := [] }

/-- The module-level state left behind by a run. -/
def modStateOf (st : GenState) : ModState :=
  { textBlockOpen := st.textBlockOpen,
    verseBlockOpen := st.verseBlockOpen,
    footnoteBlockOpen := st.footnoteBlockOpen,
    listItemBlockOpen := st.listItemBlockOpen,
    unparsedTags := st.unparsedTags }

/-- Source `uwObject.generate`: process every unit in order, then link the
chapters and wrap their html.  The about content is read externally before
processing and returned verbatim.  The result is paired with the
module-level state the call leaves behind. -/
def generate (ext : Ext) (ci : Bool) (m : ModState) (aboutHtml : String)
    (units : List (List SrcLine)) : BibleData × ModState :=
  let st := units.foldl (processUnit ext ci) (initGenState m)
  ({ chapterData := wrapChapterHtmlElements ext (addChapterNavigation st.chapterData),
     indexCalls := st.indexCalls,
     aboutHtml := aboutHtml,
     divisions := st.bookCodes,
     divisionNames := st.bookNames,
     divisionAbbreviations := st.bookAbbreviations,
     sections := st.chapterCodes },
   modStateOf st)

/-! ### Concrete instances used by closed witnesses and counterexamples -/

/-- A concrete external-collaborator record used for closed evaluations. -/
def extDemo : Ext :=
  { openVerse := fun vid n => "<v " ++ vid.getD "-" ++ " " ++ n.getD "-" ++ ">",
    closeVerse := "</v>",
    formatChapterCode := fun code n => code.getD "?" ++ numToString n,
    formatVerseCode := fun code n v => some (code.getD "?" ++ numToString n ++ ":" ++ v),
    openChapter := fun _ => "<ch>",
    closeChapter := "</ch>",
    getBookInfoByUsfmCode := fun s => { dbsCode := s, name := s, namesEng0 := s },
    lang := "eng" }

/-- The module state at module load: flags false, no unparsed tags. -/
def modInit : ModState :=
  { textBlockOpen := false, verseBlockOpen := false, footnoteBlockOpen := false,
    listItemBlockOpen := false, unparsedTags := [] }

/-! ### Specification-side definitions used to state the claims -/

/-- Number of opening fragments emitted so far for a block kind. -/
def openCount (k : BlockKind) (evs : List BlockEvent) : Nat :=
  evs.countP (fun e => decide (e = BlockEvent.openB k))

/-- Number of closing fragments emitted so far for a block kind. -/
def closeCount (k : BlockKind) (evs : List BlockEvent) : Nat :=
  evs.countP (fun e => decide (e = BlockEvent.closeB k))

/-- The block flag of a given kind. -/
def flagOf (st : GenState) : BlockKind → Bool
  | BlockKind.text => st.textBlockOpen
  | BlockKind.verse => st.verseBlockOpen
  | BlockKind.footnote => st.footnoteBlockOpen
  | BlockKind.listItem => st.listItemBlockOpen

/-- The block-flag invariant of the spec: a flag is true iff an opening
fragment for that kind has been emitted whose matching closing fragment has
not yet been emitted — with non-nesting blocks, the number of opening
fragments equals the number of closing fragments plus one when the flag is
set, and the two are equal when it is clear. -/
def flagEventInv (st : GenState) : Prop :=
  ∀ k, openCount k st.events = closeCount k st.events + (flagOf st k).toNat

/-- Whether a tag record triggers a mid-unit chapter flush: a `c` key whose
parsed number exceeds 1. -/
def cFlushTrigger (d : UsfmData) : Bool :=
  d.key == "c" && jsGTone (parseIntJs d.number)

/-- Number of mid-unit chapter flushes triggered by the tags of a unit. -/
def unitFlushCount (lines : List SrcLine) : Nat :=
  (lines.map (fun l => l.tags.countP cFlushTrigger)).sum

/-- Whether `pat` occurs at the head of `s`. -/
def leadsWith : List Char → List Char → Bool
  | [], _ => true
  | _ :: _, [] => false
  | a :: as, b :: bs => a = b && leadsWith as bs

/-- Number of positions of `s` at which the pattern `pat` occurs. -/
def countOcc (pat s : String) : Nat :=
  (List.range (s.toList.length + 1)).countP
    (fun i => leadsWith pat.toList (s.toList.drop i))

/-! ### Characterizations of the state operations -/

theorem applyClose_closeText (st : GenState) :
    applyClose closeTextBlock st =
      { st with
        textBlockOpen := false,
        currentChapter := { st.currentChapter with
          html := st.currentChapter.html ++
            (if st.textBlockOpen then "</div>" ++ htmlBreakingElement else "") },
        events := (if st.textBlockOpen then
          st.events ++ [BlockEvent.closeB BlockKind.text] else st.events) } := by
  rcases st with ⟨t, v, f, li, up, cd, ic, cc, bc, bn, ba, cb, ch, cv, nn, ev⟩
  cases t <;> simp [applyClose, closeTextBlock, appendHtml]

theorem applyClose_closeVerse (ext : Ext) (st : GenState) :
    applyClose (closeVerseBlock ext) st =
      { st with
        verseBlockOpen := false,
        currentChapter := { st.currentChapter with
          html := st.currentChapter.html ++
            (if st.verseBlockOpen then ext.closeVerse else "") },
        events := (if st.verseBlockOpen then
          st.events ++ [BlockEvent.closeB BlockKind.verse] else st.events) } := by
  rcases st with ⟨t, v, f, li, up, cd, ic, cc, bc, bn, ba, cb, ch, cv, nn, ev⟩
  cases v <;> simp [applyClose, closeVerseBlock, appendHtml]

theorem applyClose_closeFootnote (st : GenState) :
    applyClose closeFootnoteBlock st =
      { st with
        footnoteBlockOpen := false,
        currentChapter := { st.currentChapter with
          html := st.currentChapter.html ++
            (if st.footnoteBlockOpen then "</span></span>" else "") },
        events := (if st.footnoteBlockOpen then
          st.events ++ [BlockEvent.closeB BlockKind.footnote] else st.events) } := by
  rcases st with ⟨t, v, f, li, up, cd, ic, cc, bc, bn, ba, cb, ch, cv, nn, ev⟩
  cases f <;> simp [applyClose, closeFootnoteBlock, appendHtml]

theorem applyClose_closeListItem (st : GenState) :
    applyClose closeListItemBlock st =
      { st with
        listItemBlockOpen := false,
        currentChapter := { st.currentChapter with
          html := st.currentChapter.html ++
            (if st.listItemBlockOpen then "</div>" ++ htmlBreakingElement else "") },
        events := (if st.listItemBlockOpen then
          st.events ++ [BlockEvent.closeB BlockKind.listItem] else st.events) } := by
  rcases st with ⟨t, v, f, li, up, cd, ic, cc, bc, bn, ba, cb, ch, cv, nn, ev⟩
  cases li <;> simp [applyClose, closeListItemBlock, appendHtml]

theorem maybeIndexVerse_eq (ci : Bool) (ext : Ext) (st : GenState) :
    maybeIndexVerse ci ext st =
      { st with
        indexCalls := st.indexCalls ++
          (if ci ∧ st.currentVerse.text ≠ "" ∧ st.currentVerse.id ≠ none then
            [{ id := st.currentVerse.id, text := st.currentVerse.text,
               lang := ext.lang }] else []) } := by
  rcases st with ⟨t, v, f, li, up, cd, ic, cc, bc, bn, ba, cb, ch, cv, nn, ev⟩
  by_cases h : (ci : Prop) ∧ cv.text ≠ "" ∧ cv.id ≠ none <;>
    simp [maybeIndexVerse, h]

/-! ### Field behavior of the dispatch: `chapterData` -/

theorem appendHtml_chapterData (st : GenState) (s : String) :
    (appendHtml st s).chapterData = st.chapterData := rfl

theorem actB_chapterData (ext : Ext) (st : GenState) :
    (actB ext st).chapterData = st.chapterData := by
  simp [actB, closeVLT, applyClose_closeVerse, applyClose_closeListItem,
    applyClose_closeText, appendHtml]

theorem actC_chapterData (ext : Ext) (st : GenState) (d : UsfmData) :
    (actC ext st d).chapterData =
      st.chapterData ++
        (if jsGTone (parseIntJs d.number) then [flushRec ext st] else []) := by
  simp only [actC]
  cases hj : jsGTone (parseIntJs d.number) <;>
    simp [hj, flushRec, closeVLT, applyClose_closeVerse, applyClose_closeListItem,
      applyClose_closeText, closeChapter, appendHtml]

theorem actH_chapterData (st : GenState) (d : UsfmData) :
    (actH st d).chapterData = st.chapterData := rfl

theorem actId_chapterData (ext : Ext) (st : GenState) (d : UsfmData) :
    (actId ext st d).chapterData = st.chapterData := rfl

theorem actTocName_chapterData (st : GenState) (d : UsfmData) :
    (actTocName st d).chapterData = st.chapterData := by
  unfold actTocName; split <;> rfl

theorem actTocAbbr_chapterData (st : GenState) (d : UsfmData) :
    (actTocAbbr st d).chapterData = st.chapterData := by
  unfold actTocAbbr; split <;> rfl

theorem actHeading_chapterData (ext : Ext) (st : GenState) (d : UsfmData) :
    (actHeading ext st d).chapterData = st.chapterData := by
  simp [actHeading, closeVLT, applyClose_closeVerse, applyClose_closeListItem,
    applyClose_closeText, appendHtml]

theorem actV_chapterData (ext : Ext) (ci : Bool) (st : GenState) (d : UsfmData) :
    (actV ext ci st d).chapterData = st.chapterData := by
  simp [actV, applyClose_closeVerse, maybeIndexVerse_eq, appendHtml]

theorem actParagraph_chapterData (ext : Ext) (st : GenState) (d : UsfmData) :
    (actParagraph ext st d).chapterData = st.chapterData := by
  unfold actParagraph
  split <;> simp [applyClose_closeVerse, applyClose_closeText, appendHtml]

theorem actListItem_chapterData (ext : Ext) (st : GenState) (d : UsfmData) :
    (actListItem ext st d).chapterData = st.chapterData := by
  simp [actListItem, applyClose_closeVerse, applyClose_closeListItem, appendHtml]

theorem actNote_chapterData (st : GenState) (d : UsfmData) :
    (actNote st d).chapterData = st.chapterData := rfl

theorem actDefault_chapterData (st : GenState) (d : UsfmData) :
    (actDefault st d).chapterData = st.chapterData := by
  unfold actDefault; split <;> rfl

theorem applyClose_closeFootnote_chapterData (st : GenState) :
    (applyClose closeFootnoteBlock st).chapterData = st.chapterData := by
  rw [applyClose_closeFootnote]

theorem processTag_chapterData (ext : Ext) (ci : Bool) (st : GenState) (d : UsfmData) :
    (processTag ext ci st d).chapterData =
      st.chapterData ++ (if cFlushTrigger d then [flushRec ext st] else []) := by
  rcases d with ⟨k, num, txt⟩
  unfold processTag
  dsimp only
  split <;>
    first
    | (simp [actB_chapterData, actC_chapterData, actH_chapterData, actId_chapterData,
        actTocName_chapterData, actTocAbbr_chapterData, actHeading_chapterData,
        actV_chapterData, actParagraph_chapterData, actListItem_chapterData,
        actNote_chapterData, appendHtml_chapterData,
        applyClose_closeFootnote_chapterData, cFlushTrigger]
       done)
    | (have hk : k ≠ "c" := by intro h; subst h; simp_all
       simp [actDefault_chapterData, cFlushTrigger, hk])

/-! ### Field behavior of the dispatch: `unparsedTags` -/

theorem appendHtml_unparsedTags (st : GenState) (s : String) :
    (appendHtml st s).unparsedTags = st.unparsedTags := rfl

theorem actB_unparsedTags (ext : Ext) (st : GenState) :
    (actB ext st).unparsedTags = st.unparsedTags := by
  simp [actB, closeVLT, applyClose_closeVerse, applyClose_closeListItem,
    applyClose_closeText, appendHtml]

theorem actC_unparsedTags (ext : Ext) (st : GenState) (d : UsfmData) :
    (actC ext st d).unparsedTags = st.unparsedTags := by
  simp only [actC]
  cases hj : jsGTone (parseIntJs d.number) <;>
    simp [hj, closeVLT, applyClose_closeVerse, applyClose_closeListItem,
      applyClose_closeText, closeChapter, appendHtml]

theorem actH_unparsedTags (st : GenState) (d : UsfmData) :
    (actH st d).unparsedTags = st.unparsedTags := rfl

theorem actId_unparsedTags (ext : Ext) (st : GenState) (d : UsfmData) :
    (actId ext st d).unparsedTags = st.unparsedTags := rfl

theorem actTocName_unparsedTags (st : GenState) (d : UsfmData) :
    (actTocName st d).unparsedTags = st.unparsedTags := by
  unfold actTocName; split <;> rfl

theorem actTocAbbr_unparsedTags (st : GenState) (d : UsfmData) :
    (actTocAbbr st d).unparsedTags = st.unparsedTags := by
  unfold actTocAbbr; split <;> rfl

theorem actHeading_unparsedTags (ext : Ext) (st : GenState) (d : UsfmData) :
    (actHeading ext st d).unparsedTags = st.unparsedTags := by
  simp [actHeading, closeVLT, applyClose_closeVerse, applyClose_closeListItem,
    applyClose_closeText, appendHtml]

theorem actV_unparsedTags (ext : Ext) (ci : Bool) (st : GenState) (d : UsfmData) :
    (actV ext ci st d).unparsedTags = st.unparsedTags := by
  simp [actV, applyClose_closeVerse, maybeIndexVerse_eq, appendHtml]

theorem actParagraph_unparsedTags (ext : Ext) (st : GenState) (d : UsfmData) :
    (actParagraph ext st d).unparsedTags = st.unparsedTags := by
  unfold actParagraph
  split <;> simp [applyClose_closeVerse, applyClose_closeText, appendHtml]

theorem actListItem_unparsedTags (ext : Ext) (st : GenState) (d : UsfmData) :
    (actListItem ext st d).unparsedTags = st.unparsedTags := by
  simp [actListItem, applyClose_closeVerse, applyClose_closeListItem, appendHtml]

theorem actNote_unparsedTags (st : GenState) (d : UsfmData) :
    (actNote st d).unparsedTags = st.unparsedTags := rfl

theorem applyClose_closeFootnote_unparsedTags (st : GenState) :
    (applyClose closeFootnoteBlock st).unparsedTags = st.unparsedTags := by
  rw [applyClose_closeFootnote]

theorem actDefault_unparsedTags_mem (st : GenState) (d : UsfmData) (x : String)
    (hx : x ∈ st.unparsedTags) : x ∈ (actDefault st d).unparsedTags := by
  unfold actDefault; split
  · exact List.mem_append_left _ hx
  · exact hx

theorem processTag_unparsedTags_mem (ext : Ext) (ci : Bool) (st : GenState)
    (d : UsfmData) (x : String) (hx : x ∈ st.unparsedTags) :
    x ∈ (processTag ext ci st d).unparsedTags := by
  rcases d with ⟨k, num, txt⟩
  unfold processTag
  dsimp only
  split <;>
    first
    | exact hx
    | (simp only [actB_unparsedTags, actC_unparsedTags, actH_unparsedTags,
        actId_unparsedTags, actTocName_unparsedTags, actTocAbbr_unparsedTags,
        actHeading_unparsedTags, actV_unparsedTags, actParagraph_unparsedTags,
        actListItem_unparsedTags, actNote_unparsedTags, appendHtml_unparsedTags,
        applyClose_closeFootnote_unparsedTags]
       exact hx)
    | exact actDefault_unparsedTags_mem st _ x hx

/-! ### The block-flag invariant -/

theorem inv_applyClose_closeText (st : GenState) (h : flagEventInv st) :
    flagEventInv (applyClose closeTextBlock st) := by
  intro k
  have hk := h k
  rw [applyClose_closeText]
  cases hflag : st.textBlockOpen <;> cases k <;>
    simp_all [flagOf, openCount, closeCount, List.countP_append, List.countP_cons]

theorem inv_applyClose_closeVerse (ext : Ext) (st : GenState) (h : flagEventInv st) :
    flagEventInv (applyClose (closeVerseBlock ext) st) := by
  intro k
  have hk := h k
  rw [applyClose_closeVerse]
  cases hflag : st.verseBlockOpen <;> cases k <;>
    simp_all [flagOf, openCount, closeCount, List.countP_append, List.countP_cons]

theorem inv_applyClose_closeFootnote (st : GenState) (h : flagEventInv st) :
    flagEventInv (applyClose closeFootnoteBlock st) := by
  intro k
  have hk := h k
  rw [applyClose_closeFootnote]
  cases hflag : st.footnoteBlockOpen <;> cases k <;>
    simp_all [flagOf, openCount, closeCount, List.countP_append, List.countP_cons]

theorem inv_applyClose_closeListItem (st : GenState) (h : flagEventInv st) :
    flagEventInv (applyClose closeListItemBlock st) := by
  intro k
  have hk := h k
  rw [applyClose_closeListItem]
  cases hflag : st.listItemBlockOpen <;> cases k <;>
    simp_all [flagOf, openCount, closeCount, List.countP_append, List.countP_cons]

theorem flagEventInv_of_same (st st' : GenState) (hev : st'.events = st.events)
    (h1 : st'.textBlockOpen = st.textBlockOpen)
    (h2 : st'.verseBlockOpen = st.verseBlockOpen)
    (h3 : st'.footnoteBlockOpen = st.footnoteBlockOpen)
    (h4 : st'.listItemBlockOpen = st.listItemBlockOpen)
    (h : flagEventInv st) : flagEventInv st' := by
  intro k
  have hk := h k
  cases k <;> simp_all [flagOf, hev, h1, h2, h3, h4]

theorem inv_closeVLT (ext : Ext) (st : GenState) (h : flagEventInv st) :
    flagEventInv (closeVLT ext st) :=
  inv_applyClose_closeText _ (inv_applyClose_closeListItem _
    (inv_applyClose_closeVerse ext _ h))

theorem inv_appendHtml (st : GenState) (s : String) (h : flagEventInv st) :
    flagEventInv (appendHtml st s) :=
  flagEventInv_of_same st _ rfl rfl rfl rfl rfl h

theorem inv_actB (ext : Ext) (st : GenState) (h : flagEventInv st) :
    flagEventInv (actB ext st) :=
  inv_appendHtml _ _ (inv_closeVLT ext st h)

theorem actC_events (ext : Ext) (st : GenState) (d : UsfmData) :
    (actC ext st d).events = (closeVLT ext st).events := by
  simp only [actC]
  cases hj : jsGTone (parseIntJs d.number) <;> simp [hj, closeChapter, appendHtml]

theorem actC_flags (ext : Ext) (st : GenState) (d : UsfmData) :
    (actC ext st d).textBlockOpen = (closeVLT ext st).textBlockOpen ∧
    (actC ext st d).verseBlockOpen = (closeVLT ext st).verseBlockOpen ∧
    (actC ext st d).footnoteBlockOpen = (closeVLT ext st).footnoteBlockOpen ∧
    (actC ext st d).listItemBlockOpen = (closeVLT ext st).listItemBlockOpen := by
  simp only [actC]
  cases hj : jsGTone (parseIntJs d.number) <;> simp [hj, closeChapter, appendHtml]

theorem inv_actC (ext : Ext) (st : GenState) (d : UsfmData) (h : flagEventInv st) :
    flagEventInv (actC ext st d) :=
  flagEventInv_of_same (closeVLT ext st) _ (actC_events ext st d)
    (actC_flags ext st d).1 (actC_flags ext st d).2.1
    (actC_flags ext st d).2.2.1 (actC_flags ext st d).2.2.2
    (inv_closeVLT ext st h)

theorem inv_actH (st : GenState) (d : UsfmData) (h : flagEventInv st) :
    flagEventInv (actH st d) :=
  flagEventInv_of_same st _ rfl rfl rfl rfl rfl h

theorem inv_actId (ext : Ext) (st : GenState) (d : UsfmData) (h : flagEventInv st) :
    flagEventInv (actId ext st d) :=
  flagEventInv_of_same st _ rfl rfl rfl rfl rfl h

theorem inv_actTocName (st : GenState) (d : UsfmData) (h : flagEventInv st) :
    flagEventInv (actTocName st d) := by
  unfold actTocName
  split
  · exact flagEventInv_of_same st _ rfl rfl rfl rfl rfl h
  · exact h

theorem inv_actTocAbbr (st : GenState) (d : UsfmData) (h : flagEventInv st) :
    flagEventInv (actTocAbbr st d) := by
  unfold actTocAbbr
  split
  · exact flagEventInv_of_same st _ rfl rfl rfl rfl rfl h
  · exact h

theorem inv_actHeading (ext : Ext) (st : GenState) (d : UsfmData)
    (h : flagEventInv st) : flagEventInv (actHeading ext st d) :=
  inv_appendHtml _ _ (inv_closeVLT ext st h)

theorem inv_actV (ext : Ext) (ci : Bool) (st : GenState) (d : UsfmData)
    (h : flagEventInv st) : flagEventInv (actV ext ci st d) := by
  have h1 := inv_applyClose_closeVerse ext st h
  have hflag : (applyClose (closeVerseBlock ext) st).verseBlockOpen = false := by
    rw [applyClose_closeVerse]
  intro k
  have hk := h1 k
  cases k <;>
    simp_all [actV, maybeIndexVerse_eq, appendHtml, flagOf, openCount, closeCount,
      List.countP_append, List.countP_cons]

theorem inv_actParagraph (ext : Ext) (st : GenState) (d : UsfmData)
    (h : flagEventInv st) : flagEventInv (actParagraph ext st d) := by
  have h1 := inv_applyClose_closeText _ (inv_applyClose_closeVerse ext st h)
  have hflagT :
      (applyClose closeTextBlock (applyClose (closeVerseBlock ext) st)).textBlockOpen =
        false := by
    rw [applyClose_closeText]
  have hflagV :
      (applyClose closeTextBlock (applyClose (closeVerseBlock ext) st)).verseBlockOpen =
        false := by
    rw [applyClose_closeText, applyClose_closeVerse]
  intro k
  have hk := h1 k
  by_cases ht : d.text ≠ "" <;> cases k <;>
    simp_all [actParagraph, appendHtml, flagOf, openCount, closeCount,
      List.countP_append, List.countP_cons]

theorem inv_actListItem (ext : Ext) (st : GenState) (d : UsfmData)
    (h : flagEventInv st) : flagEventInv (actListItem ext st d) := by
  have h1 := inv_applyClose_closeListItem _ (inv_applyClose_closeVerse ext st h)
  have hflag :
      (applyClose closeListItemBlock
        (applyClose (closeVerseBlock ext) st)).listItemBlockOpen = false := by
    rw [applyClose_closeListItem]
  intro k
  have hk := h1 k
  cases k <;>
    simp_all [actListItem, appendHtml, flagOf, openCount, closeCount,
      List.countP_append, List.countP_cons]

theorem inv_actNote (st : GenState) (d : UsfmData)
    (hf : st.footnoteBlockOpen = false) (h : flagEventInv st) :
    flagEventInv (actNote st d) := by
  intro k
  have hk := h k
  cases k <;>
    simp_all [actNote, appendHtml, flagOf, openCount, closeCount,
      List.countP_append, List.countP_cons]

theorem inv_actDefault (st : GenState) (d : UsfmData) (h : flagEventInv st) :
    flagEventInv (actDefault st d) := by
  unfold actDefault
  split
  · exact flagEventInv_of_same st _ rfl rfl rfl rfl rfl h
  · exact h

theorem processTag_flagEventInv (ext : Ext) (ci : Bool) (st : GenState)
    (d : UsfmData) (hf : d.key = "x" ∨ d.key = "f" → st.footnoteBlockOpen = false)
    (h : flagEventInv st) : flagEventInv (processTag ext ci st d) := by
  rcases d with ⟨k, num, txt⟩
  unfold processTag
  dsimp only
  dsimp only at hf
  split
  · exact inv_actB ext st h
  · exact inv_actC ext st _ h
  · exact inv_actH st _ h
  · exact h
  · exact inv_actId ext st _ h
  · exact inv_actTocName st _ h
  · exact inv_actTocName st _ h
  · exact inv_actTocAbbr st _ h
  · exact inv_actHeading ext st _ h
  · exact inv_actHeading ext st _ h
  · exact inv_actHeading ext st _ h
  · exact inv_actHeading ext st _ h
  · exact inv_actHeading ext st _ h
  · exact inv_actHeading ext st _ h
  · exact inv_actHeading ext st _ h
  · exact inv_actHeading ext st _ h
  · exact inv_actHeading ext st _ h
  · exact inv_actHeading ext st _ h
  · exact inv_actHeading ext st _ h
  · exact inv_actHeading ext st _ h
  · exact inv_actHeading ext st _ h
  · exact inv_actHeading ext st _ h
  · exact inv_actHeading ext st _ h
  · exact inv_actHeading ext st _ h
  · exact inv_actHeading ext st _ h
  · exact inv_actV ext ci st _ h
  · exact inv_actParagraph ext st _ h
  · exact inv_actParagraph ext st _ h
  · exact inv_actParagraph ext st _ h
  · exact inv_actParagraph ext st _ h
  · exact inv_actParagraph ext st _ h
  · exact inv_actParagraph ext st _ h
  · exact inv_actParagraph ext st _ h
  · exact inv_actParagraph ext st _ h
  · exact inv_actParagraph ext st _ h
  · exact inv_actParagraph ext st _ h
  · exact inv_actListItem ext st _ h
  · exact inv_actListItem ext st _ h
  · exact inv_actListItem ext st _ h
  · exact inv_actListItem ext st _ h
  · exact inv_actNote st _ (hf (Or.inl rfl)) h
  · exact inv_actNote st _ (hf (Or.inr rfl)) h
  · exact inv_appendHtml st _ h
  · exact inv_appendHtml st _ h
  · exact inv_applyClose_closeFootnote st h
  · exact inv_applyClose_closeFootnote st h
  · exact inv_appendHtml st _ h
  · exact inv_appendHtml st _ h
  · exact inv_appendHtml st _ h
  · exact inv_appendHtml st _ h
  · exact inv_appendHtml st _ h
  · exact inv_appendHtml st _ h
  · exact inv_actDefault st _ h

/-! ### The verse dispatch, the footnote dispatch, and the caller strip -/

theorem processTag_key_v (ext : Ext) (ci : Bool) (st : GenState) (num txt : String) :
    processTag ext ci st { key := "v", number := num, text := txt } =
      actV ext ci st { key := "v", number := num, text := txt } := rfl

theorem processTag_key_f (ext : Ext) (ci : Bool) (st : GenState) (num txt : String) :
    processTag ext ci st { key := "f", number := num, text := txt } =
      actNote st { key := "f", number := num, text := txt } := rfl

theorem processTag_key_x (ext : Ext) (ci : Bool) (st : GenState) (num txt : String) :
    processTag ext ci st { key := "x", number := num, text := txt } =
      actNote st { key := "x", number := num, text := txt } := rfl

theorem actV_indexCalls (ext : Ext) (ci : Bool) (st : GenState) (d : UsfmData) :
    (actV ext ci st d).indexCalls =
      st.indexCalls ++
        (if ci ∧ st.currentVerse.text ≠ "" ∧ st.currentVerse.id ≠ none then
          [{ id := st.currentVerse.id, text := st.currentVerse.text,
             lang := ext.lang }] else []) := by
  simp [actV, maybeIndexVerse_eq, applyClose_closeVerse, appendHtml]

theorem actV_html (ext : Ext) (ci : Bool) (st : GenState) (d : UsfmData) :
    (actV ext ci st d).currentChapter.html =
      st.currentChapter.html ++ (if st.verseBlockOpen then ext.closeVerse else "") ++
        (ext.openVerse (vCode ext st d) (some d.number) ++ d.text) := by
  simp [actV, maybeIndexVerse_eq, applyClose_closeVerse, appendHtml, vCode]

theorem actV_currentVerse (ext : Ext) (ci : Bool) (st : GenState) (d : UsfmData) :
    (actV ext ci st d).currentVerse =
      { id := vCode ext st d, number := d.number, text := d.text } := by
  simp [actV, maybeIndexVerse_eq, applyClose_closeVerse, appendHtml, vCode]

theorem actNote_html (st : GenState) (d : UsfmData) :
    (actNote st d).currentChapter.html =
      st.currentChapter.html ++ (notePre st.noteNumber ++ stripCaller d.text) := rfl

theorem stripCaller_single_caller (c : Char) (rest : String) (hc : c ≠ ' ') :
    stripCaller (String.mk [c] ++ " " ++ rest) = rest := by
  obtain ⟨l⟩ := rest
  show stripCaller (String.mk (c :: ' ' :: l)) = String.mk l
  simp [stripCaller, idxOfSpace, hc]

/-! ### Unit-end cleanup -/

theorem unitCleanup_chapterData (ext : Ext) (ci : Bool) (st : GenState) :
    (unitCleanup ext ci st).chapterData =
      st.chapterData ++
        [{ id := st.currentChapter.id, title := st.currentChapter.title,
           html := st.currentChapter.html ++
             (if st.footnoteBlockOpen then "</span></span>" else "") ++
             (if st.verseBlockOpen then ext.closeVerse else "") ++
             (if st.listItemBlockOpen then "</div>" ++ htmlBreakingElement else "") ++
             (if st.textBlockOpen then "</div>" ++ htmlBreakingElement else "") }] := by
  simp [unitCleanup, applyClose_closeFootnote, applyClose_closeVerse,
    applyClose_closeListItem, applyClose_closeText, maybeIndexVerse_eq,
    closeChapter, appendHtml]

theorem unitCleanup_indexCalls (ext : Ext) (ci : Bool) (st : GenState) :
    (unitCleanup ext ci st).indexCalls =
      st.indexCalls ++
        (if ci ∧ st.currentVerse.text ≠ "" ∧ st.currentVerse.id ≠ none then
          [{ id := st.currentVerse.id, text := st.currentVerse.text,
             lang := ext.lang }] else []) := by
  simp [unitCleanup, applyClose_closeFootnote, applyClose_closeVerse,
    applyClose_closeListItem, applyClose_closeText, maybeIndexVerse_eq,
    closeChapter, appendHtml]

theorem inv_maybeIndexVerse (ci : Bool) (ext : Ext) (st : GenState)
    (h : flagEventInv st) : flagEventInv (maybeIndexVerse ci ext st) := by
  rw [maybeIndexVerse_eq]
  exact flagEventInv_of_same st _ rfl rfl rfl rfl rfl h

theorem inv_unitCleanup (ext : Ext) (ci : Bool) (st : GenState)
    (h : flagEventInv st) : flagEventInv (unitCleanup ext ci st) := by
  simp only [unitCleanup]
  exact flagEventInv_of_same
    (applyClose closeTextBlock (applyClose closeListItemBlock
      (maybeIndexVerse ci ext (applyClose (closeVerseBlock ext)
        (applyClose closeFootnoteBlock st))))) _ rfl rfl rfl rfl rfl
    (inv_applyClose_closeText _ (inv_applyClose_closeListItem _
      (inv_maybeIndexVerse _ _ _ (inv_applyClose_closeVerse ext _
        (inv_applyClose_closeFootnote st h)))))

/-! ### Chapter counting through lines, units and runs -/

theorem foldl_processTag_chapterData_length (ext : Ext) (ci : Bool)
    (ts : List UsfmData) : ∀ st : GenState,
    ((ts.foldl (processTag ext ci) st).chapterData).length =
      st.chapterData.length + ts.countP cFlushTrigger := by
  induction ts with
  | nil => intro st; simp
  | cons t ts ih =>
    intro st
    rw [List.foldl_cons, ih, processTag_chapterData, List.countP_cons]
    cases h : cFlushTrigger t <;> simp [h] <;> omega

theorem processLine_chapterData_length (ext : Ext) (ci : Bool) (st : GenState)
    (l : SrcLine) :
    ((processLine ext ci st l).chapterData).length =
      st.chapterData.length + l.tags.countP cFlushTrigger := by
  unfold processLine
  split_ifs with h1 h2
  · simp [appendHtml, h1]
  · simp [h1]
  · exact foldl_processTag_chapterData_length ext ci l.tags st

theorem foldl_processLine_chapterData_length (ext : Ext) (ci : Bool)
    (lines : List SrcLine) : ∀ st : GenState,
    ((lines.foldl (processLine ext ci) st).chapterData).length =
      st.chapterData.length + unitFlushCount lines := by
  induction lines with
  | nil => intro st; simp [unitFlushCount]
  | cons l ls ih =>
    intro st
    rw [List.foldl_cons, ih, processLine_chapterData_length]
    simp [unitFlushCount]
    omega

theorem processUnit_chapterData_length (ext : Ext) (ci : Bool) (st : GenState)
    (lines : List SrcLine) :
    ((processUnit ext ci st lines).chapterData).length =
      st.chapterData.length + unitFlushCount lines + 1 := by
  unfold processUnit
  rw [unitCleanup_chapterData]
  simp [foldl_processLine_chapterData_length]
  rfl

theorem foldl_processUnit_chapterData_length (ext : Ext) (ci : Bool)
    (units : List (List SrcLine)) : ∀ st : GenState,
    ((units.foldl (processUnit ext ci) st).chapterData).length =
      st.chapterData.length + (units.map unitFlushCount).sum + units.length := by
  induction units with
  | nil => intro st; simp
  | cons u us ih =>
    intro st
    rw [List.foldl_cons, ih, processUnit_chapterData_length]
    simp
    omega

theorem navAux_length (l : List ChapterRecord) : ∀ p, (navAux p l).length = l.length := by
  induction l with
  | nil => intro p; rfl
  | cons c rest ih => intro p; simp [navAux, ih]

theorem generate_chapterData_length (ext : Ext) (ci : Bool) (m : ModState)
    (about : String) (units : List (List SrcLine)) :
    ((generate ext ci m about units).1.chapterData).length =
      (units.map unitFlushCount).sum + units.length := by
  show ((wrapChapterHtmlElements ext (addChapterNavigation
      (units.foldl (processUnit ext ci) (initGenState m)).chapterData)).length) = _
  rw [wrapChapterHtmlElements, List.length_map, addChapterNavigation, navAux_length,
    foldl_processUnit_chapterData_length]
  simp [initGenState]

/-! ### The navigation pass -/

theorem navAux_get (l : List ChapterRecord) : ∀ (p : Option String) (i : Nat)
    (r : NavRecord), (navAux p l)[i]? = some r →
    ∃ c, l[i]? = some c ∧ r.id = c.id ∧ r.title = c.title ∧ r.html = c.html ∧
      r.previd = (if i = 0 then p else (l[i - 1]?).map (fun x => x.id)) ∧
      r.nextid = (l[i + 1]?).map (fun x => x.id) := by
  induction l with
  | nil => intro p i r h; simp [navAux] at h
  | cons c rest ih =>
    intro p i r h
    cases i with
    | zero =>
      simp only [navAux, List.getElem?_cons_zero, Option.some.injEq] at h
      subst h
      refine ⟨c, by simp, rfl, rfl, rfl, by simp, ?_⟩
      cases rest <;> simp
    | succ j =>
      simp only [navAux, List.getElem?_cons_succ] at h
      obtain ⟨c', hc', hid, ht, hh, hp, hn⟩ := ih (some c.id) j r h
      refine ⟨c', by simpa using hc', hid, ht, hh, ?_, ?_⟩
      · rw [hp]
        cases j with
        | zero => simp
        | succ j' => simp
      · rw [hn]
        simp

theorem wrap_get (ext : Ext) (l : List NavRecord) (i : Nat) :
    (wrapChapterHtmlElements ext l)[i]? =
      (l[i]?).map (fun c =>
        { c with html := ext.openChapter c ++ c.html ++ ext.closeChapter }) := by
  simp [wrapChapterHtmlElements]

theorem navAux_get_id (l : List ChapterRecord) (p : Option String) (j : Nat) :
    ((navAux p l)[j]?).map (fun r => r.id) = (l[j]?).map (fun c => c.id) := by
  cases h : (navAux p l)[j]? with
  | some r =>
    obtain ⟨c, hc, hid, -⟩ := navAux_get l p j r h
    simp [hc, hid]
  | none =>
    have hlen : l.length ≤ j := by
      have := List.getElem?_eq_none_iff.mp h
      rwa [navAux_length] at this
    simp [List.getElem?_eq_none hlen]

/-! ### Closing blocks that are not open -/

theorem appendHtml_empty (st : GenState) : appendHtml st "" = st := by
  rcases st with ⟨t, v, f, li, up, cd, ic, cc, bc, bn, ba, cb, ch, cv, nn, ev⟩
  simp [appendHtml]

theorem closeTextBlock_not_open (st : GenState) (h : st.textBlockOpen = false) :
    closeTextBlock st = ("", st) := by
  simp [closeTextBlock, h]

theorem closeVerseBlock_not_open (ext : Ext) (st : GenState)
    (h : st.verseBlockOpen = false) : closeVerseBlock ext st = ("", st) := by
  simp [closeVerseBlock, h]

theorem closeFootnoteBlock_not_open (st : GenState)
    (h : st.footnoteBlockOpen = false) : closeFootnoteBlock st = ("", st) := by
  simp [closeFootnoteBlock, h]

theorem closeListItemBlock_not_open (st : GenState)
    (h : st.listItemBlockOpen = false) : closeListItemBlock st = ("", st) := by
  simp [closeListItemBlock, h]

theorem applyClose_not_open (f : GenState → String × GenState) (st : GenState)
    (hf : f st = ("", st)) : applyClose f st = st := by
  unfold applyClose
  rw [hf]
  exact appendHtml_empty st

/-! ### Monotonicity of the unparsed-tag registry -/

theorem foldl_processTag_unparsedTags_mem (ext : Ext) (ci : Bool)
    (ts : List UsfmData) : ∀ (st : GenState) (x : String), x ∈ st.unparsedTags →
    x ∈ ((ts.foldl (processTag ext ci) st)).unparsedTags := by
  induction ts with
  | nil => intro st x hx; exact hx
  | cons t ts ih =>
    intro st x hx
    exact ih _ x (processTag_unparsedTags_mem ext ci st t x hx)

theorem processLine_unparsedTags_mem (ext : Ext) (ci : Bool) (st : GenState)
    (l : SrcLine) (x : String) (hx : x ∈ st.unparsedTags) :
    x ∈ (processLine ext ci st l).unparsedTags := by
  unfold processLine
  split_ifs with h1 h2
  · exact hx
  · exact hx
  · exact foldl_processTag_unparsedTags_mem ext ci l.tags st x hx

theorem unitCleanup_unparsedTags (ext : Ext) (ci : Bool) (st : GenState) :
    (unitCleanup ext ci st).unparsedTags = st.unparsedTags := by
  simp [unitCleanup, applyClose_closeFootnote, applyClose_closeVerse,
    applyClose_closeListItem, applyClose_closeText, maybeIndexVerse_eq,
    closeChapter, appendHtml]

theorem foldl_processLine_unparsedTags_mem (ext : Ext) (ci : Bool)
    (lines : List SrcLine) : ∀ (st : GenState) (x : String), x ∈ st.unparsedTags →
    x ∈ ((lines.foldl (processLine ext ci) st)).unparsedTags := by
  induction lines with
  | nil => intro st x hx; exact hx
  | cons l ls ih =>
    intro st x hx
    exact ih _ x (processLine_unparsedTags_mem ext ci st l x hx)

theorem processUnit_unparsedTags_mem (ext : Ext) (ci : Bool) (st : GenState)
    (lines : List SrcLine) (x : String) (hx : x ∈ st.unparsedTags) :
    x ∈ (processUnit ext ci st lines).unparsedTags := by
  unfold processUnit
  rw [unitCleanup_unparsedTags]
  exact foldl_processLine_unparsedTags_mem ext ci lines (resetUnitState st) x hx

theorem foldl_processUnit_unparsedTags_mem (ext : Ext) (ci : Bool)
    (units : List (List SrcLine)) : ∀ (st : GenState) (x : String),
    x ∈ st.unparsedTags → x ∈ ((units.foldl (processUnit ext ci) st)).unparsedTags := by
  induction units with
  | nil => intro st x hx; exact hx
  | cons u us ih =>
    intro st x hx
    exact ih _ x (processUnit_unparsedTags_mem ext ci st u x hx)

theorem generate_unparsedTags_mem (ext : Ext) (ci : Bool) (m : ModState)
    (about : String) (units : List (List SrcLine)) (x : String)
    (hx : x ∈ m.unparsedTags) :
    x ∈ ((generate ext ci m about units).2).unparsedTags := by
  show x ∈ (units.foldl (processUnit ext ci) (initGenState m)).unparsedTags
  exact foldl_processUnit_unparsedTags_mem ext ci units (initGenState m) x hx

theorem processTag_key_c (ext : Ext) (ci : Bool) (st : GenState) (num txt : String) :
    processTag ext ci st { key := "c", number := num, text := txt } =
      actC ext st { key := "c", number := num, text := txt } := rfl

theorem actC_html_flush (ext : Ext) (st : GenState) (d : UsfmData)
    (hj : jsGTone (parseIntJs d.number) = true) :
    (actC ext st d).currentChapter.html =
      getChapterHeader (actC ext st d).currentChapter := by
  simp [actC, hj, appendHtml, getChapterHeader]

/-! ### The claims -/

/-- C1, counterexample: a single source unit whose only chapter tag is
`c 2` (one chapter-boundary tag) produces two ChapterRecords, because the
mid-unit flush happens whenever the parsed chapter number exceeds 1 — here
already at the first `c` of the unit, flushing a spurious empty record —
so chapterData does not contain exactly one record per `c` tag. -/
theorem claim1_cex :
    ((generate extDemo false modInit ""
        [[{ raw := "", tags := [{ key := "c", number := "2", text := "" }] }]]).1.chapterData).length = 2 ∧
    ((generate extDemo false modInit ""
        [[{ raw := "", tags := [{ key := "c", number := "2", text := "" }] }]]).1.chapterData).length ≠ 1 := by
  constructor
  · decide
  · decide

/-- C1, amended: a `c` dispatch flushes the previously accumulated chapter
into chapterData exactly when the record's parsed number exceeds 1 (not
when the record is not the first chapter tag of its unit), resetting the
accumulator so that the new chapter's html is exactly its header; a `c`
dispatch whose parsed number is at most 1 (or `NaN`) flushes nothing; and
every unit contributes one additional record at unit-end cleanup, so a run
produces one ChapterRecord per unit plus one per `c` tag with parsed
number exceeding 1, appended in dispatch order. -/
theorem claim1_flush_rule :
    (∀ (ext : Ext) (ci : Bool) (st : GenState) (num txt : String),
      (jsGTone (parseIntJs num) = true →
        (processTag ext ci st { key := "c", number := num, text := txt }).chapterData =
          st.chapterData ++ [flushRec ext st] ∧
        (processTag ext ci st { key := "c", number := num, text := txt }).currentChapter.html =
          getChapterHeader
            (processTag ext ci st { key := "c", number := num, text := txt }).currentChapter) ∧
      (jsGTone (parseIntJs num) = false →
        (processTag ext ci st { key := "c", number := num, text := txt }).chapterData =
          st.chapterData)) ∧
    (∀ (ext : Ext) (ci : Bool) (st : GenState) (lines : List SrcLine),
      ((processUnit ext ci st lines).chapterData).length =
        st.chapterData.length + unitFlushCount lines + 1) ∧
    (∀ (ext : Ext) (ci : Bool) (m : ModState) (about : String)
        (units : List (List SrcLine)),
      ((generate ext ci m about units).1.chapterData).length =
        (units.map unitFlushCount).sum + units.length) := by
  refine ⟨?_, processUnit_chapterData_length, generate_chapterData_length⟩
  intro ext ci st num txt
  rw [processTag_key_c]
  constructor
  · intro hj
    refine ⟨?_, actC_html_flush ext st _ hj⟩
    rw [actC_chapterData]
    simp [hj]
  · intro hj
    rw [actC_chapterData]
    simp [hj]

/-- C1 witness: the amended statement applied at a concrete flushing and a
concrete non-flushing chapter dispatch. -/
theorem claim1_flush_rule_witness :
    jsGTone (parseIntJs "2") = true ∧ jsGTone (parseIntJs "1") = false ∧
    (processTag extDemo false (initGenState modInit)
        { key := "c", number := "2", text := "" }).chapterData =
      (initGenState modInit).chapterData ++ [flushRec extDemo (initGenState modInit)] ∧
    (processTag extDemo false (initGenState modInit)
        { key := "c", number := "1", text := "" }).chapterData =
      (initGenState modInit).chapterData :=
  ⟨by decide, by decide,
   ((claim1_flush_rule.1 extDemo false (initGenState modInit) "2" "").1 (by decide)).1,
   (claim1_flush_rule.1 extDemo false (initGenState modInit) "1" "").2 (by decide)⟩

/-- C2: on a `v` dispatch the verse block is closed first (its closing
fragment precedes the new opening fragment in the appended html), the
previous verse accumulator is submitted to the indexer exactly when index
creation is on, its text is non-empty and its id is non-null, the
accumulator is then overwritten from the record, and in particular a
pending verse with empty text is never indexed. -/
theorem claim2_verse_indexing :
    ∀ (ext : Ext) (ci : Bool) (st : GenState) (num txt : String),
      ((processTag ext ci st { key := "v", number := num, text := txt }).indexCalls =
        st.indexCalls ++
          (if ci ∧ st.currentVerse.text ≠ "" ∧ st.currentVerse.id ≠ none then
            [{ id := st.currentVerse.id, text := st.currentVerse.text,
               lang := ext.lang }] else [])) ∧
      ((processTag ext ci st { key := "v", number := num, text := txt }).currentChapter.html =
        st.currentChapter.html ++ (if st.verseBlockOpen then ext.closeVerse else "") ++
          (ext.openVerse (vCode ext st { key := "v", number := num, text := txt })
            (some num) ++ txt)) ∧
      ((processTag ext ci st { key := "v", number := num, text := txt }).currentVerse =
        { id := vCode ext st { key := "v", number := num, text := txt },
          number := num, text := txt }) ∧
      (st.currentVerse.text = "" →
        (processTag ext ci st { key := "v", number := num, text := txt }).indexCalls =
          st.indexCalls) := by
  intro ext ci st num txt
  rw [processTag_key_v]
  refine ⟨actV_indexCalls ext ci st _, actV_html ext ci st _,
    actV_currentVerse ext ci st _, ?_⟩
  intro h0
  rw [actV_indexCalls]
  simp [h0]

/-- C2 witness: two consecutive verse markers where the first carries empty
text; the second dispatch performs no indexing call. -/
theorem claim2_verse_indexing_witness :
    (actV extDemo true (initGenState modInit)
        { key := "v", number := "1", text := "" }).currentVerse.text = "" ∧
    (processTag extDemo true
        (actV extDemo true (initGenState modInit)
          { key := "v", number := "1", text := "" })
        { key := "v", number := "2", text := "" }).indexCalls =
      (actV extDemo true (initGenState modInit)
        { key := "v", number := "1", text := "" }).indexCalls :=
  ⟨by decide,
   (claim2_verse_indexing extDemo true
     (actV extDemo true (initGenState modInit)
       { key := "v", number := "1", text := "" }) "2" "").2.2.2 (by decide)⟩

/-- C5, counterexample: dispatching a second footnote open (`f`) while a
footnote is already open emits a second opening fragment without any
intervening closing fragment, so afterwards two footnote opening fragments
face zero closing fragments while the single boolean flag records only
one pending block: the claimed flag/fragment invariant is violated, and
the `f` dispatch case does not preserve it. -/
theorem claim5_cex :
    flagEventInv (processTag extDemo false (initGenState modInit)
      { key := "f", number := "", text := "+ a" }) ∧
    openCount BlockKind.footnote
      (processTag extDemo false
        (processTag extDemo false (initGenState modInit)
          { key := "f", number := "", text := "+ a" })
        { key := "f", number := "", text := "+ b" }).events = 2 ∧
    closeCount BlockKind.footnote
      (processTag extDemo false
        (processTag extDemo false (initGenState modInit)
          { key := "f", number := "", text := "+ a" })
        { key := "f", number := "", text := "+ b" }).events = 0 ∧
    (processTag extDemo false
      (processTag extDemo false (initGenState modInit)
        { key := "f", number := "", text := "+ a" })
      { key := "f", number := "", text := "+ b" }).footnoteBlockOpen = true ∧
    ¬ flagEventInv (processTag extDemo false
        (processTag extDemo false (initGenState modInit)
          { key := "f", number := "", text := "+ a" })
        { key := "f", number := "", text := "+ b" }) := by
  refine ⟨?_, by decide, by decide, by decide, ?_⟩
  · intro k; cases k <;> decide
  · intro h
    exact absurd (h BlockKind.footnote) (by decide)

/-- C5, amended: every dispatch case preserves the flag/fragment invariant
for all four block kinds, provided a footnote/cross-reference open tag is
only dispatched while no footnote is open (the text, verse and list-item
cases need no proviso because they close their own block before opening a
new one, and the paragraph case opens and closes its inline anonymous
verse within the same dispatch without touching the verse flag); unit-end
cleanup preserves the invariant as well. -/
theorem claim5_flag_invariant :
    (∀ (ext : Ext) (ci : Bool) (st : GenState) (d : UsfmData),
      (d.key = "x" ∨ d.key = "f" → st.footnoteBlockOpen = false) →
      flagEventInv st → flagEventInv (processTag ext ci st d)) ∧
    (∀ (ext : Ext) (ci : Bool) (st : GenState),
      flagEventInv st → flagEventInv (unitCleanup ext ci st)) :=
  ⟨fun ext ci st d hf h => processTag_flagEventInv ext ci st d hf h,
   fun ext ci st h => inv_unitCleanup ext ci st h⟩

/-- C5 witness: the amended invariant applied to a paragraph dispatch with
inline text from the initial state. -/
theorem claim5_flag_invariant_witness :
    flagEventInv (initGenState modInit) ∧
    flagEventInv (processTag extDemo false (initGenState modInit)
      { key := "p", number := "", text := "hello" }) :=
  ⟨fun k => by cases k <;> decide,
   claim5_flag_invariant.1 extDemo false (initGenState modInit)
     { key := "p", number := "", text := "hello" } (fun hk => by cases hk <;> simp_all)
     (fun k => by cases k <;> decide)⟩

/-- C6: invoking any of the four close operations when that block is not
open returns the empty fragment and the unchanged state (and, being a
total function, cannot throw), so appending its result changes nothing. -/
theorem claim6_close_unopened :
    ∀ (ext : Ext) (st : GenState),
      (st.textBlockOpen = false →
        closeTextBlock st = ("", st) ∧ applyClose closeTextBlock st = st) ∧
      (st.verseBlockOpen = false →
        closeVerseBlock ext st = ("", st) ∧
          applyClose (closeVerseBlock ext) st = st) ∧
      (st.footnoteBlockOpen = false →
        closeFootnoteBlock st = ("", st) ∧ applyClose closeFootnoteBlock st = st) ∧
      (st.listItemBlockOpen = false →
        closeListItemBlock st = ("", st) ∧ applyClose closeListItemBlock st = st) := by
  intro ext st
  refine ⟨fun h => ⟨closeTextBlock_not_open st h,
      applyClose_not_open _ _ (closeTextBlock_not_open st h)⟩,
    fun h => ⟨closeVerseBlock_not_open ext st h,
      applyClose_not_open _ _ (closeVerseBlock_not_open ext st h)⟩,
    fun h => ⟨closeFootnoteBlock_not_open st h,
      applyClose_not_open _ _ (closeFootnoteBlock_not_open st h)⟩,
    fun h => ⟨closeListItemBlock_not_open st h,
      applyClose_not_open _ _ (closeListItemBlock_not_open st h)⟩⟩

/-- C6 witness: all four close operations on the initial state, where no
block is open. -/
theorem claim6_close_unopened_witness :
    (initGenState modInit).textBlockOpen = false ∧
    closeTextBlock (initGenState modInit) = ("", initGenState modInit) ∧
    closeVerseBlock extDemo (initGenState modInit) = ("", initGenState modInit) ∧
    closeFootnoteBlock (initGenState modInit) = ("", initGenState modInit) ∧
    closeListItemBlock (initGenState modInit) = ("", initGenState modInit) :=
  ⟨rfl,
   ((claim6_close_unopened extDemo (initGenState modInit)).1 rfl).1,
   ((claim6_close_unopened extDemo (initGenState modInit)).2.1 rfl).1,
   ((claim6_close_unopened extDemo (initGenState modInit)).2.2.1 rfl).1,
   ((claim6_close_unopened extDemo (initGenState modInit)).2.2.2 rfl).1⟩

/-- C7, counterexample: an untagged line with content is not appended
verbatim — the engine appends `' ' + line`, so for the line `abc` the
chapter html gains `\x20abc`, not `abc`. -/
theorem claim7_cex :
    (processLine extDemo false (initGenState modInit)
        { raw := "abc", tags := [] }).currentChapter.html = " abc" ∧
    (processLine extDemo false (initGenState modInit)
        { raw := "abc", tags := [] }).currentChapter.html ≠
      (initGenState modInit).currentChapter.html ++ "abc" := by
  constructor
  · decide
  · decide

/-- C7, amended: for every line with non-whitespace content whose
tokenization is empty, the engine appends one space followed by the raw
line — the line itself otherwise unchanged — to the current chapter html,
and changes nothing else. -/
theorem claim7_untagged_line :
    ∀ (ext : Ext) (ci : Bool) (st : GenState) (l : SrcLine),
      l.tags = [] → hasNonWs l.raw = true →
      processLine ext ci st l = appendHtml st (" " ++ l.raw) := by
  intro ext ci st l h1 h2
  unfold processLine
  simp [h1, h2]

/-- C7 witness: the amended statement at the line `abc` from the initial
state. -/
theorem claim7_untagged_line_witness :
    ({ raw := "abc", tags := [] } : SrcLine).tags = [] ∧
    hasNonWs "abc" = true ∧
    processLine extDemo false (initGenState modInit) { raw := "abc", tags := [] } =
      appendHtml (initGenState modInit) (" " ++ "abc") :=
  ⟨rfl, by decide,
   claim7_untagged_line extDemo false (initGenState modInit)
     { raw := "abc", tags := [] } rfl (by decide)⟩

/-- C8, counterexample: when the character before the first space is itself
a space (text `\x20\x20r`, of the form C + ' ' + rest with C the
one-character string `\x20` and rest `r`), the emitted footnote fragment
does not include `r` but `\x20r`: the claim fails for a space caller. -/
theorem claim8_cex :
    stripCaller ("  r" : String) ≠ "r" ∧
    (processTag extDemo false (initGenState modInit)
        { key := "f", number := "", text := "  r" }).currentChapter.html ≠
      (initGenState modInit).currentChapter.html ++ (notePre 1 ++ "r") := by
  constructor
  · decide
  · decide

/-- C8, amended: for a footnote or cross-reference open record whose text
is a single non-space character, a space, and a remainder, the emitted
fragment includes exactly the remainder after the fixed note preamble. -/
theorem claim8_caller_stripped :
    ∀ (ext : Ext) (ci : Bool) (st : GenState) (num : String) (c : Char)
      (rest : String) (key : String), c ≠ ' ' → key = "f" ∨ key = "x" →
      (processTag ext ci st
          { key := key, number := num, text := String.mk [c] ++ " " ++ rest }).currentChapter.html =
        st.currentChapter.html ++ (notePre st.noteNumber ++ rest) := by
  intro ext ci st num c rest key hc hkey
  have hstrip := stripCaller_single_caller c rest hc
  rcases hkey with h | h <;> subst h
  · rw [processTag_key_f, actNote_html, hstrip]
  · rw [processTag_key_x, actNote_html, hstrip]

/-- C8 witness: a `+` caller followed by a space and the word `hello`. -/
theorem claim8_caller_stripped_witness :
    ('+' ≠ ' ') ∧
    (processTag extDemo false (initGenState modInit)
        { key := "f", number := "", text := String.mk ['+'] ++ " " ++ "hello" }).currentChapter.html =
      (initGenState modInit).currentChapter.html ++ (notePre 1 ++ "hello") :=
  ⟨by decide,
   claim8_caller_stripped extDemo false (initGenState modInit) "" '+' "hello" "f"
     (by decide) (Or.inl rfl)⟩

/-- C10: the unparsed-tag registry is module-level state that `generate`
never resets or shrinks: every key present in the registry after one call
is still present during and after a second call on the same module state,
so the registry accumulates across runs. -/
theorem claim10_registry_accumulates :
    ∀ (ext : Ext) (ci : Bool) (m : ModState) (about1 about2 : String)
      (units1 units2 : List (List SrcLine)) (x : String),
      x ∈ ((generate ext ci m about1 units1).2).unparsedTags →
      x ∈ ((generate ext ci ((generate ext ci m about1 units1).2) about2
        units2).2).unparsedTags := by
  intro ext ci m about1 about2 units1 units2 x hx
  exact generate_unparsedTags_mem ext ci _ about2 units2 x hx

/-- C10 witness: a tag `zzz` recorded during a first run is still in the
registry after a second run over different units. -/
theorem claim10_registry_accumulates_witness :
    "zzz" ∈ ((generate extDemo false modInit ""
        [[{ raw := "", tags := [{ key := "zzz", number := "", text := "" }] }]]).2).unparsedTags ∧
    "zzz" ∈ ((generate extDemo false
        ((generate extDemo false modInit ""
          [[{ raw := "", tags := [{ key := "zzz", number := "", text := "" }] }]]).2) ""
        [[{ raw := "x", tags := [] }]]).2).unparsedTags :=
  ⟨by decide,
   claim10_registry_accumulates extDemo false modInit "" ""
     [[{ raw := "", tags := [{ key := "zzz", number := "", text := "" }] }]]
     [[{ raw := "x", tags := [] }]] "zzz" (by decide)⟩

/-- C3: after the postprocessing pass, in the finalized chapterData
sequence every record's `previd` is the id of its predecessor (null for the
first record) and every record's `nextid` is the id of its successor
(null for the last, since indexing one past the end yields `none`). -/
theorem claim3_navigation :
    ∀ (ext : Ext) (ci : Bool) (m : ModState) (about : String)
      (units : List (List SrcLine)) (i : Nat) (r : NavRecord),
      ((generate ext ci m about units).1.chapterData)[i]? = some r →
      (r.previd = if i = 0 then none
        else (((generate ext ci m about units).1.chapterData)[i - 1]?).map
          (fun x => x.id)) ∧
      (r.nextid = (((generate ext ci m about units).1.chapterData)[i + 1]?).map
        (fun x => x.id)) := by
  intro ext ci m about units i r h
  have hgen : (generate ext ci m about units).1.chapterData =
      wrapChapterHtmlElements ext (addChapterNavigation
        ((units.foldl (processUnit ext ci) (initGenState m)).chapterData)) := rfl
  rw [hgen] at h ⊢
  set cd := (units.foldl (processUnit ext ci) (initGenState m)).chapterData with hcd
  rw [wrap_get] at h
  cases hnl : (addChapterNavigation cd)[i]? with
  | none => rw [hnl] at h; simp at h
  | some nr =>
    rw [hnl] at h
    have hr : ({ nr with html := ext.openChapter nr ++ nr.html ++ ext.closeChapter }
        : NavRecord) = r := by
      simpa using h
    obtain ⟨c, hc, hid, ht, hh, hp, hn⟩ := navAux_get cd none i nr hnl
    constructor
    · rw [← hr]
      show nr.previd = _
      rw [hp]
      by_cases h0 : i = 0
      · simp [h0]
      · simp only [h0, if_false]
        rw [wrap_get, Option.map_map]
        exact (navAux_get_id cd none (i - 1)).symm
    · rw [← hr]
      show nr.nextid = _
      rw [hn]
      rw [wrap_get, Option.map_map]
      exact (navAux_get_id cd none (i + 1)).symm

/-- C3 witness: the navigation property of the single record produced by a
one-chapter run. -/
theorem claim3_navigation_witness :
    ((generate extDemo false modInit ""
        [[{ raw := "", tags := [{ key := "c", number := "1", text := "" }] }]]).1.chapterData)[0]? =
      some { id := "?1", title := "undefined 1",
             html := "<ch><div class=\"c\">1</div>\n</ch>",
             previd := none, nextid := none } ∧
    ((({ id := "?1", title := "undefined 1",
         html := "<ch><div class=\"c\">1</div>\n</ch>",
         previd := none, nextid := none } : NavRecord).previd =
      if (0 : Nat) = 0 then none
      else (((generate extDemo false modInit ""
        [[{ raw := "", tags := [{ key := "c", number := "1", text := "" }] }]]).1.chapterData)[0 - 1]?).map
          (fun x => x.id)) ∧
     (({ id := "?1", title := "undefined 1",
         html := "<ch><div class=\"c\">1</div>\n</ch>",
         previd := none, nextid := none } : NavRecord).nextid =
      (((generate extDemo false modInit ""
        [[{ raw := "", tags := [{ key := "c", number := "1", text := "" }] }]]).1.chapterData)[0 + 1]?).map
          (fun x => x.id))) :=
  ⟨by decide,
   claim3_navigation extDemo false modInit ""
     [[{ raw := "", tags := [{ key := "c", number := "1", text := "" }] }]] 0
     { id := "?1", title := "undefined 1",
       html := "<ch><div class=\"c\">1</div>\n</ch>",
       previd := none, nextid := none } (by decide)⟩

/-- C4: unit-end cleanup appends, in this order, the pending footnote
close, verse close, list-item close and text close to the chapter html and
finalizes the last chapter with exactly that html; the pending verse is
indexed under the same guard as the `v` dispatch.  In the end-to-end
scenario, a footnote opened with `f` and never closed before unit end is
force-closed at cleanup with its content in the final chapter fragment
exactly once. -/
theorem claim4_cleanup_order :
    (∀ (ext : Ext) (ci : Bool) (st : GenState),
      (unitCleanup ext ci st).chapterData =
        st.chapterData ++
          [{ id := st.currentChapter.id, title := st.currentChapter.title,
             html := st.currentChapter.html ++
               (if st.footnoteBlockOpen then "</span></span>" else "") ++
               (if st.verseBlockOpen then ext.closeVerse else "") ++
               (if st.listItemBlockOpen then "</div>" ++ htmlBreakingElement else "") ++
               (if st.textBlockOpen then "</div>" ++ htmlBreakingElement else "") }] ∧
      (unitCleanup ext ci st).indexCalls =
        st.indexCalls ++
          (if ci ∧ st.currentVerse.text ≠ "" ∧ st.currentVerse.id ≠ none then
            [{ id := st.currentVerse.id, text := st.currentVerse.text,
               lang := ext.lang }] else [])) ∧
    ((generate extDemo false modInit ""
        [[{ raw := "", tags := [{ key := "f", number := "", text := "+ hello" }] }]]).1.chapterData).length = 1 ∧
    countOcc "hello"
      (((generate extDemo false modInit ""
        [[{ raw := "", tags := [{ key := "f", number := "", text := "+ hello" }] }]]).1.chapterData).headD
        { id := "", title := "", html := "", previd := none, nextid := none }).html = 1 ∧
    countOcc "</span></span>"
      (((generate extDemo false modInit ""
        [[{ raw := "", tags := [{ key := "f", number := "", text := "+ hello" }] }]]).1.chapterData).headD
        { id := "", title := "", html := "", previd := none, nextid := none }).html = 1 := by
  refine ⟨fun ext ci st => ⟨unitCleanup_chapterData ext ci st,
    unitCleanup_indexCalls ext ci st⟩, by decide, by decide, by decide⟩

/-- C9, counterexample: the postprocessing pass does not leave `html`
unchanged — `wrapChapterHtmlElements` replaces each record's html with the
wrapped html, so a record appended with html `h` ends with a different
html. -/
theorem claim9_cex :
    ((wrapChapterHtmlElements extDemo (addChapterNavigation
        [{ id := "A", title := "t", html := "h" }])).headD
      { id := "", title := "", html := "", previd := none, nextid := none }).html =
      "<ch>h</ch>" ∧
    ((wrapChapterHtmlElements extDemo (addChapterNavigation
        [{ id := "A", title := "t", html := "h" }])).headD
      { id := "", title := "", html := "", previd := none, nextid := none }).html ≠
      "h" := by
  constructor
  · decide
  · decide

/-- C9, amended: once appended, a ChapterRecord's `id` and `title` are
never modified; the postprocessing pass modifies only the navigation
fields (set by `addChapterNavigation`) and the `html` field, which is
changed exactly by wrapping the original html between the chapter opening
and closing fragments. -/
theorem claim9_postprocess :
    ∀ (ext : Ext) (l : List ChapterRecord) (i : Nat) (r' : NavRecord),
      (wrapChapterHtmlElements ext (addChapterNavigation l))[i]? = some r' →
      ∃ c nr, l[i]? = some c ∧ (addChapterNavigation l)[i]? = some nr ∧
        nr.id = c.id ∧ nr.title = c.title ∧ nr.html = c.html ∧
        r'.id = c.id ∧ r'.title = c.title ∧ r'.previd = nr.previd ∧
        r'.nextid = nr.nextid ∧
        r'.html = ext.openChapter nr ++ c.html ++ ext.closeChapter := by
  intro ext l i r' h
  rw [wrap_get] at h
  cases hnl : (addChapterNavigation l)[i]? with
  | none => rw [hnl] at h; simp at h
  | some nr =>
    rw [hnl] at h
    have hr : ({ nr with html := ext.openChapter nr ++ nr.html ++ ext.closeChapter }
        : NavRecord) = r' := by
      simpa using h
    obtain ⟨c, hc, hid, ht, hh, -, -⟩ := navAux_get l none i nr hnl
    refine ⟨c, nr, hc, rfl, hid, ht, hh, ?_, ?_, ?_, ?_, ?_⟩
    · rw [← hr]; exact hid
    · rw [← hr]; exact ht
    · rw [← hr]
    · rw [← hr]
    · rw [← hr]
      show ext.openChapter nr ++ nr.html ++ ext.closeChapter = _
      rw [hh]

/-- C9 witness: the amended statement at a one-record list. -/
theorem claim9_postprocess_witness :
    (wrapChapterHtmlElements extDemo (addChapterNavigation
        [{ id := "A", title := "t", html := "h" }]))[0]? =
      some { id := "A", title := "t", html := "<ch>h</ch>",
             previd := none, nextid := none } ∧
    ∃ c nr, ([{ id := "A", title := "t", html := "h" }] :
        List ChapterRecord)[0]? = some c ∧
      (addChapterNavigation [{ id := "A", title := "t", html := "h" }])[0]? = some nr ∧
      nr.id = c.id ∧ nr.title = c.title ∧ nr.html = c.html ∧
      ({ id := "A", title := "t", html := "<ch>h</ch>",
         previd := none, nextid := none } : NavRecord).id = c.id ∧
      ({ id := "A", title := "t", html := "<ch>h</ch>",
         previd := none, nextid := none } : NavRecord).title = c.title ∧
      ({ id := "A", title := "t", html := "<ch>h</ch>",
         previd := none, nextid := none } : NavRecord).previd = nr.previd ∧
      ({ id := "A", title := "t", html := "<ch>h</ch>",
         previd := none, nextid := none } : NavRecord).nextid = nr.nextid ∧
      ({ id := "A", title := "t", html := "<ch>h</ch>",
         previd := none, nextid := none } : NavRecord).html =
        extDemo.openChapter nr ++ c.html ++ extDemo.closeChapter :=
  ⟨by decide,
   claim9_postprocess extDemo [{ id := "A", title := "t", html := "h" }] 0
     { id := "A", title := "t", html := "<ch>h</ch>",
       previd := none, nextid := none } (by decide)⟩

end UWGen
